import Mathlib

/-!
Shallow embedding of the assignment-lifecycle backend (aplusplanner-backend).

The repository is an Express/Prisma tutoring-marketplace backend.  We model
the database as explicit lists of `User` and `Assignment` records, and each
controller from `src/controllers/assignmentController.ts` (shipped here as
`src/unnamed/part_003`) and `src/controllers/paymentController.ts` as a pure
function from its request parameters and the database to an HTTP-level
result, the new database, and the list of e-mails sent.

Prisma operations are modelled directly:
  `findUnique/findFirst { where }`  ↦  `List.find?` with the same predicate;
  `update { where: { id }, data }`  ↦  map over the list, rewriting the
                                       records whose `id` matches.
A Prisma `update` on a missing id throws, which the controllers' `catch`
turns into a 500 response; we model that branch explicitly.
Timestamps are `Nat` (`new Date()` becomes an explicit `now` argument);
`tutorCharge` (a float price) is modelled as `Int`, keeping the
`price <= 0` guard of the source.  E-mail dispatch is modelled by returning
the list of messages passed to `sendEmail`, with the dynamic parts of the
message bodies elided (only recipient and subject are kept).
-/

namespace APlusPlanner

/-- A row of the Prisma `User` model (fields the controllers read). -/
structure User where
  id : String
  firstName : String
  lastName : String
  email : String
  role : String
  programSpecialty : Option String
  isApproved : Bool
  isVerified : Bool
deriving Repr, DecidableEq

/-- A row of the Prisma `Assignment` model. -/
structure Assignment where
  id : String
  studentId : String
  title : String
  description : String
  programSpecialty : String
  fileUrl : String
  status : String
  submittedAt : Nat
  assignedTutorId : Option String
  tutorCharge : Option Int
  paidAt : Option Nat
  isPaid : Bool
  completedFileUrl : Option String
  completedAt : Option Nat
deriving Repr, DecidableEq

/-- An argument record of `sendEmail` (the `to` field, renamed `toAddr`
since `to` is reserved in Lean; body text elided). -/
structure Email where
  toAddr : String
  subject : String
deriving Repr, DecidableEq

/-- The persistent store seen by the controllers. -/
structure DB where
  users : List User
  assignments : List Assignment
deriving Repr, DecidableEq

/-- The HTTP-level outcome a controller produces. -/
inductive ApiResult where
  | ok (msg : String)
  | okAssignment (a : Assignment)
  | redirect (url : String)
  | err (code : Nat) (msg : String)
deriving Repr, DecidableEq

/-- `process.env.ADMIN_EMAIL`, an opaque environment value. -/
def adminEmail : String := "admin@aplusplanner"

/-- `prisma.assignment.update({ where: { id }, data: f })`:
rewrite the records whose `id` matches. -/
def updateAssignment (db : DB) (assignmentId : String)
    (f : Assignment → Assignment) : DB :=
  { db with assignments :=
      db.assignments.map fun a => if a.id == assignmentId then f a else a }

/-- `assignAssignment` (admin "open for tutors" route): looks the assignment
up and sets `status := "Assigned"` — without touching `assignedTutorId` and
without checking the current status. -/
def assignAssignment (assignmentId : String) (db : DB) :
    ApiResult × DB × List Email :=
  match db.assignments.find? (fun a => a.id == assignmentId) with
  | none => (.err 404 "Assignment not found", db, [])
  | some _ =>
      (.ok "Assignment is now open for tutors with matching program specialty.",
       updateAssignment db assignmentId (fun a => { a with status := "Assigned" }),
       [])

/-- `assignAssignmentToTutor`: requires the assignment to exist and the
target user to be an approved `TUTOR`; then sets `assignedTutorId` and
`status := "Assigned"` (no check of the current status) and e-mails the
tutor and the admin. -/
def assignAssignmentToTutor (assignmentId tutorId : String) (db : DB) :
    ApiResult × DB × List Email :=
  match db.assignments.find? (fun a => a.id == assignmentId) with
  | none => (.err 404 "Assignment not found", db, [])
  | some _ =>
      match db.users.find?
          (fun u => u.id == tutorId && u.role == "TUTOR" && u.isApproved) with
      | none => (.err 404 "Tutor not found or not approved.", db, [])
      | some tutor =>
          (.ok "Assignment assigned to tutor.",
           updateAssignment db assignmentId
             (fun a => { a with assignedTutorId := some tutorId,
                                status := "Assigned" }),
           [⟨tutor.email, "New Assignment Assigned to You"⟩,
            ⟨adminEmail, "Assignment Assigned Notification"⟩])

/-- `reviewAndSetPrice` (assigned tutor accepts and prices): rejects a
non-positive price, looks the assignment up by `id` *and*
`assignedTutorId = tutorId`, requires `status = "Assigned"`, then sets
`status := "In Progress"` and `tutorCharge := price` and e-mails the student
and the admin.  A missing student relation makes the source throw while
building the e-mail, after the update, which the `catch` turns into 500. -/
def reviewAndSetPrice (assignmentId : String) (price : Int) (tutorId : String)
    (db : DB) : ApiResult × DB × List Email :=
  if price ≤ 0 then
    (.err 400 "Invalid price. It must be a positive number.", db, [])
  else
    match db.assignments.find?
        (fun a => a.id == assignmentId && a.assignedTutorId == some tutorId) with
    | none => (.err 404 "Assignment not found or not assigned to you.", db, [])
    | some a =>
        if a.status ≠ "Assigned" then
          (.err 400 "Assignment is not in an assignable state.", db, [])
        else
          let db' := updateAssignment db assignmentId
            (fun b => { b with status := "In Progress", tutorCharge := some price })
          match db.users.find? (fun u => u.id == a.studentId) with
          | none => (.err 500 "Something went wrong", db', [])
          | some s =>
              (.ok "Assignment accepted and price set.", db',
               [⟨s.email, "Assignment Accepted and Priced"⟩,
                ⟨adminEmail, "Tutor Accepted and Priced Assignment"⟩])

/-- `completeAssignment`: updates the assignment directly — no check of the
caller's identity (`req.user` is never read, modelled by the unused
`tutorId`) and no check of the current status; sets `status := "Completed"`,
`completedFileUrl` and `completedAt`, then e-mails the student.  A missing
record makes the Prisma update throw (caught as 500); a missing student
yields 404 after the update has been applied. -/
def completeAssignment (assignmentId fileUrl tutorId : String) (now : Nat)
    (db : DB) : ApiResult × DB × List Email :=
  match db.assignments.find? (fun a => a.id == assignmentId) with
  | none => (.err 500 "Something went wrong", db, [])
  | some a =>
      let db' := updateAssignment db assignmentId
        (fun b => { b with status := "Completed",
                           completedFileUrl := some fileUrl,
                           completedAt := some now })
      match db.users.find? (fun u => u.id == a.studentId) with
      | none => (.err 404 "Student or assignment not found.", db', [])
      | some s =>
          (.ok "Assignment marked as completed.", db',
           [⟨s.email, "Your Assignment is Completed"⟩])

/-- `rejectAssignment`: requires the assignment to exist and
`status = "Assigned"`, then sets `status := "Rejected"`.  The source reads
no caller identity at all (plain `Request`). -/
def rejectAssignment (assignmentId : String) (db : DB) :
    ApiResult × DB × List Email :=
  match db.assignments.find? (fun a => a.id == assignmentId) with
  | none => (.err 404 "Assignment not found.", db, [])
  | some a =>
      if a.status ≠ "Assigned" then
        (.err 400 "Assignment is not in an assignable state.", db, [])
      else
        (.ok "Assignment rejected successfully.",
         updateAssignment db assignmentId (fun b => { b with status := "Rejected" }),
         [])

/-- `markAssignmentAsPaid`: requires the assignment to exist and
`isPaid = false`, then sets `isPaid := true` — nothing else; the current
status is not checked and `paidAt` is not written. -/
def markAssignmentAsPaid (assignmentId : String) (db : DB) :
    ApiResult × DB × List Email :=
  match db.assignments.find? (fun a => a.id == assignmentId) with
  | none => (.err 404 "Assignment not found.", db, [])
  | some a =>
      if a.isPaid then
        (.err 400 "Assignment is already marked as paid.", db, [])
      else
        (.ok "Assignment marked as paid successfully.",
         updateAssignment db assignmentId (fun b => { b with isPaid := true }),
         [])

/-- `getAssignmentById`: looks the assignment up and returns the full
record.  The source reads nothing from `req.user`; the `callerId` and
`callerRole` arguments model the authenticated caller and are (faithfully)
unused. -/
def getAssignmentById (assignmentId callerId callerRole : String) (db : DB) :
    ApiResult × DB × List Email :=
  match db.assignments.find? (fun a => a.id == assignmentId) with
  | none => (.err 404 "Assignment not found", db, [])
  | some a => (.okAssignment a, db, [])

/-- `downloadAssignment` (`GET /api/assignments/download/:assignmentId`):
redirects any authenticated caller to `completedFileUrl` when it exists —
no ownership, role or payment check. -/
def downloadAssignment (assignmentId : String) (db : DB) :
    ApiResult × DB × List Email :=
  match db.assignments.find? (fun a => a.id == assignmentId) with
  | none => (.err 404 "Completed file not found.", db, [])
  | some a =>
      match a.completedFileUrl with
      | none => (.err 404 "Completed file not found.", db, [])
      | some url => (.redirect url, db, [])

/-- `downloadSolutionFile` (`GET /download/completed/:assignmentId`): finds
the assignment by `id` *and* the caller's `studentId` (404 otherwise), then
requires `isPaid` (403 otherwise) and a `completedFileUrl` (404 otherwise)
before redirecting. -/
def downloadSolutionFile (assignmentId studentId : String) (db : DB) :
    ApiResult × DB × List Email :=
  match db.assignments.find?
      (fun a => a.id == assignmentId && a.studentId == studentId) with
  | none => (.err 404 "Assignment not found.", db, [])
  | some a =>
      if a.isPaid = false then
        (.err 403 "Access denied. Payment required to download the solution.", db, [])
      else
        match a.completedFileUrl with
        | none => (.err 404 "Solution file not found.", db, [])
        | some url => (.redirect url, db, [])

/-- The result of `verifyPayment(reference)` from the external Paystack
gateway: its `data.status` and `data.metadata.assignmentId`. -/
structure VerificationData where
  status : String
  metadataAssignmentId : Option String
deriving Repr, DecidableEq

/-- `verifyPaymentForAssignment` (`GET /api/payments/verify?reference=`):
on a successful gateway verification, unconditionally updates the
assignment with `isPaid := true` (a missing id makes the update throw,
caught as 500) and re-sends the solution-availability e-mail whenever the
student's e-mail and `completedFileUrl` are present — there is no guard on
the previous value of `isPaid`. -/
def verifyPaymentForAssignment (reference : Option String)
    (verif : VerificationData) (db : DB) : ApiResult × DB × List Email :=
  match reference with
  | none => (.err 400 "Payment reference is required.", db, [])
  | some _ =>
      if verif.status == "success" then
        match verif.metadataAssignmentId with
        | none => (.err 400 "Assignment ID missing from payment verification data.", db, [])
        | some assignmentId =>
            match db.assignments.find? (fun a => a.id == assignmentId) with
            | none => (.err 500 "Something went wrong", db, [])
            | some a =>
                let db' := updateAssignment db assignmentId
                  (fun b => { b with isPaid := true })
                let emails :=
                  match db.users.find? (fun u => u.id == a.studentId) with
                  | none => []
                  | some s =>
                      if s.email ≠ "" ∧ a.completedFileUrl.isSome then
                        [⟨s.email, "Assignment Solution Available"⟩]
                      else []
                (.ok "Payment verified successfully!", db', emails)
      else (.err 400 "Payment verification failed.", db, [])

/-! ### Concrete sample records, used below to evaluate the controllers -/

/-- A sample student. -/
def exStudent : User :=
  ⟨"s1", "Sena", "Student", "s1@mail", "STUDENT", none, false, true⟩

/-- A sample second student (not the owner of any sample assignment). -/
def exStudent2 : User :=
  ⟨"s2", "Seli", "Student", "s2@mail", "STUDENT", none, false, true⟩

/-- A sample approved tutor. -/
def exTutor : User :=
  ⟨"t1", "Tina", "Tutor", "t1@mail", "TUTOR", some "Econ", true, true⟩

/-- A second sample approved tutor. -/
def exTutor2 : User :=
  ⟨"t2", "Tom", "Tutor", "t2@mail", "TUTOR", some "Econ", true, true⟩

/-- A sample tutor with `isApproved = false`. -/
def exTutorUnapproved : User :=
  ⟨"t3", "Tara", "Tutor", "t3@mail", "TUTOR", some "Econ", false, true⟩

/-- A freshly submitted assignment (status `Pending`, no tutor). -/
def asgPending : Assignment :=
  ⟨"a1", "s1", "Essay", "essay on markets", "Econ", "file1", "Pending", 1,
   none, none, none, false, none, none⟩

/-- An assignment priced by tutor `t1` (status `In Progress`). -/
def asgInProgress : Assignment :=
  ⟨"a2", "s1", "Problem set", "ten problems", "Econ", "file2", "In Progress", 2,
   some "t1", some 50, none, false, none, none⟩

/-- A completed but unpaid assignment with a solution file. -/
def asgCompletedUnpaid : Assignment :=
  ⟨"a3", "s1", "Report", "lab report", "Econ", "file3", "Completed", 3,
   some "t1", some 50, none, false, some "sol3", some 10⟩

/-- A completed and paid assignment with a solution file. -/
def asgCompletedPaid : Assignment :=
  ⟨"a4", "s1", "Review", "literature review", "Econ", "file4", "Completed", 4,
   some "t1", some 50, none, true, some "sol4", some 10⟩

/-- An assignment assigned to tutor `t1`, not yet priced. -/
def asgAssigned : Assignment :=
  ⟨"a5", "s1", "Slides", "slide deck", "Econ", "file5", "Assigned", 5,
   some "t1", none, none, false, none, none⟩

/-- A sample database holding all of the above. -/
def exDB : DB :=
  ⟨[exStudent, exStudent2, exTutor, exTutor2, exTutorUnapproved],
   [asgPending, asgInProgress, asgCompletedUnpaid, asgCompletedPaid, asgAssigned]⟩

/-! ### Helper lemmas about `updateAssignment` -/

/-- Looking an id up after an id-preserving update yields the updated
record. -/
theorem find?_map_update (l : List Assignment) (id0 : String)
    (f : Assignment → Assignment) (hf : ∀ a, (f a).id = a.id) :
    (l.map fun a => if a.id == id0 then f a else a).find? (fun a => a.id == id0) =
      (l.find? (fun a => a.id == id0)).map f := by
  induction l with
  | nil => rfl
  | cons a l ih =>
      by_cases h : a.id = id0
      · simp [List.find?_cons, h, hf]
      · have hb : (a.id == id0) = false := by simp [h]
        simp only [List.map_cons, hb, Bool.false_eq_true, if_false,
          List.find?_cons, hb]
        exact ih

/-- `find?` version of the previous lemma at `DB` level. -/
theorem find?_updateAssignment (db : DB) (id0 : String)
    (f : Assignment → Assignment) (hf : ∀ a, (f a).id = a.id) :
    (updateAssignment db id0 f).assignments.find? (fun a => a.id == id0) =
      (db.assignments.find? (fun a => a.id == id0)).map f :=
  find?_map_update db.assignments id0 f hf

/-- Every record of an updated store comes from a record of the original
store, either rewritten (if its id matches) or untouched. -/
theorem mem_updateAssignment {b : Assignment} {db : DB} {id0 : String}
    {f : Assignment → Assignment}
    (hb : b ∈ (updateAssignment db id0 f).assignments) :
    ∃ a ∈ db.assignments, b = if a.id == id0 then f a else a := by
  simp only [updateAssignment, List.mem_map] at hb
  obtain ⟨a, ha, hab⟩ := hb
  exact ⟨a, ha, hab.symm⟩

/-- Records whose id differs from the updated one survive an update
unchanged. -/
theorem mem_updateAssignment_of_ne {b : Assignment} {db : DB} {id0 : String}
    {f : Assignment → Assignment} (hb : b ∈ db.assignments) (hne : b.id ≠ id0) :
    b ∈ (updateAssignment db id0 f).assignments := by
  simp only [updateAssignment, List.mem_map]
  exact ⟨b, hb, by simp [hne]⟩

/-- Setting `isPaid := true` on a record that is already paid is the
identity. -/
theorem setPaid_eq_self {a : Assignment} (h : a.isPaid = true) :
    { a with isPaid := true } = a := by
  cases a
  simp_all

/-! ### Claim theorems -/

/-- C5: `mark-paid` is idempotent in outcome.  On an assignment with
`isPaid = true` the call fails with the `AlreadyPaid`-style 400 error and
the store is completely unchanged; on an assignment with `isPaid = false`
the call succeeds, sets `isPaid` to `true`, and a second call on the
resulting store fails with the same 400 error leaving the store unchanged
and the record still paid. -/
theorem markAssignmentAsPaid_idempotent (db : DB) (assignmentId : String)
    (a : Assignment)
    (h : db.assignments.find? (fun b => b.id == assignmentId) = some a) :
    (a.isPaid = true →
      markAssignmentAsPaid assignmentId db =
        (.err 400 "Assignment is already marked as paid.", db, [])) ∧
    (a.isPaid = false →
      (markAssignmentAsPaid assignmentId db).1 =
        .ok "Assignment marked as paid successfully." ∧
      (markAssignmentAsPaid assignmentId db).2.1.assignments.find?
          (fun b => b.id == assignmentId) = some { a with isPaid := true } ∧
      markAssignmentAsPaid assignmentId (markAssignmentAsPaid assignmentId db).2.1 =
        (.err 400 "Assignment is already marked as paid.",
         (markAssignmentAsPaid assignmentId db).2.1, [])) := by
  constructor
  · intro hp
    simp [markAssignmentAsPaid, h, hp]
  · intro hp
    have hrun : markAssignmentAsPaid assignmentId db =
        (.ok "Assignment marked as paid successfully.",
         updateAssignment db assignmentId (fun b => { b with isPaid := true }), []) := by
      simp [markAssignmentAsPaid, h, hp]
    have hupd : (updateAssignment db assignmentId
          (fun b => { b with isPaid := true })).assignments.find?
        (fun b => b.id == assignmentId) = some { a with isPaid := true } := by
      rw [find?_updateAssignment db assignmentId
        (fun b => { b with isPaid := true }) (fun b => rfl), h]
      rfl
    have h21 : (markAssignmentAsPaid assignmentId db).2.1 =
        updateAssignment db assignmentId (fun b => { b with isPaid := true }) := by
      rw [hrun]
    refine ⟨by rw [hrun], by rw [h21]; exact hupd, ?_⟩
    rw [h21]
    simp [markAssignmentAsPaid, hupd]

/-- C5 witness: concrete runs of both branches on the sample store. -/
theorem markAssignmentAsPaid_idempotent_witness :
    markAssignmentAsPaid "a4" exDB =
      (.err 400 "Assignment is already marked as paid.", exDB, []) ∧
    (markAssignmentAsPaid "a3" exDB).1 =
      .ok "Assignment marked as paid successfully." :=
  ⟨(markAssignmentAsPaid_idempotent exDB "a4" asgCompletedPaid (by decide)).1
      (by decide),
   ((markAssignmentAsPaid_idempotent exDB "a3" asgCompletedUnpaid (by decide)).2
      (by decide)).1⟩

/-- C9: `getAssignmentById` is caller-independent: any two authenticated
callers of any roles receive identical responses, a found assignment is
returned as the full record (hence with `completedFileUrl` and `isPaid`),
and the only failing case is a missing id (404). -/
theorem getAssignmentById_caller_independent (db : DB)
    (assignmentId c1 r1 c2 r2 : String) :
    getAssignmentById assignmentId c1 r1 db =
      getAssignmentById assignmentId c2 r2 db ∧
    (∀ a, db.assignments.find? (fun b => b.id == assignmentId) = some a →
      getAssignmentById assignmentId c1 r1 db = (.okAssignment a, db, [])) ∧
    (db.assignments.find? (fun b => b.id == assignmentId) = none →
      getAssignmentById assignmentId c1 r1 db =
        (.err 404 "Assignment not found", db, [])) := by
  refine ⟨rfl, ?_, ?_⟩
  · intro a ha
    simp [getAssignmentById, ha]
  · intro hn
    simp [getAssignmentById, hn]

/-- C9 witness: two different callers obtain the same full record of a paid
assignment; a missing id yields 404. -/
theorem getAssignmentById_caller_independent_witness :
    getAssignmentById "a4" "s2" "STUDENT" exDB =
      getAssignmentById "a4" "admin" "ADMIN" exDB ∧
    getAssignmentById "a4" "s2" "STUDENT" exDB =
      (.okAssignment asgCompletedPaid, exDB, []) ∧
    getAssignmentById "zz" "s2" "STUDENT" exDB =
      (.err 404 "Assignment not found", exDB, []) :=
  ⟨(getAssignmentById_caller_independent exDB "a4" "s2" "STUDENT" "admin" "ADMIN").1,
   (getAssignmentById_caller_independent exDB "a4" "s2" "STUDENT" "admin" "ADMIN").2.1
      asgCompletedPaid (by decide),
   (getAssignmentById_caller_independent exDB "zz" "s2" "STUDENT" "admin" "ADMIN").2.2
      (by decide)⟩

/-- C10: a successful `mark-paid` modifies only the `isPaid` field of the
target assignment: users are untouched, the number of assignment records is
unchanged, every other record survives unchanged, and the target record
keeps every field — status, studentId, assignedTutorId, tutorCharge,
fileUrl, completedFileUrl, completedAt, submittedAt, title, description and
in particular `paidAt` — except `isPaid`, which becomes `true`. -/
theorem markAssignmentAsPaid_frame (db : DB) (assignmentId : String)
    (a : Assignment)
    (h : db.assignments.find? (fun b => b.id == assignmentId) = some a)
    (hp : a.isPaid = false) :
    (markAssignmentAsPaid assignmentId db).1 =
      .ok "Assignment marked as paid successfully." ∧
    (markAssignmentAsPaid assignmentId db).2.1.users = db.users ∧
    (markAssignmentAsPaid assignmentId db).2.1.assignments.length =
      db.assignments.length ∧
    (∀ b ∈ db.assignments, b.id ≠ assignmentId →
      b ∈ (markAssignmentAsPaid assignmentId db).2.1.assignments) ∧
    ∃ a', (markAssignmentAsPaid assignmentId db).2.1.assignments.find?
            (fun b => b.id == assignmentId) = some a' ∧
      a'.isPaid = true ∧ a'.status = a.status ∧ a'.studentId = a.studentId ∧
      a'.assignedTutorId = a.assignedTutorId ∧ a'.tutorCharge = a.tutorCharge ∧
      a'.fileUrl = a.fileUrl ∧ a'.completedFileUrl = a.completedFileUrl ∧
      a'.completedAt = a.completedAt ∧ a'.submittedAt = a.submittedAt ∧
      a'.paidAt = a.paidAt ∧ a'.title = a.title ∧
      a'.description = a.description := by
  have hrun : markAssignmentAsPaid assignmentId db =
      (.ok "Assignment marked as paid successfully.",
       updateAssignment db assignmentId (fun b => { b with isPaid := true }), []) := by
    simp [markAssignmentAsPaid, h, hp]
  rw [hrun]
  refine ⟨rfl, rfl, by simp [updateAssignment], ?_, ?_⟩
  · intro b hb hbne
    exact mem_updateAssignment_of_ne hb hbne
  · refine ⟨{ a with isPaid := true }, ?_, by simp⟩
    show (updateAssignment db assignmentId
        (fun b => { b with isPaid := true })).assignments.find?
      (fun b => b.id == assignmentId) = some { a with isPaid := true }
    rw [find?_updateAssignment db assignmentId
      (fun b => { b with isPaid := true }) (fun b => rfl), h]
    rfl

/-- C10 witness: concrete successful run on the sample pending
assignment. -/
theorem markAssignmentAsPaid_frame_witness :
    (markAssignmentAsPaid "a1" exDB).1 =
      .ok "Assignment marked as paid successfully." :=
  (markAssignmentAsPaid_frame exDB "a1" asgPending (by decide) (by decide)).1

/-- C8: on an existing assignment, `assign-to-tutor` fails with 404 and
leaves the store unchanged whenever no user is an approved tutor with the
target id (covering: target absent, role ≠ TUTOR, or `isApproved = false`),
and succeeds when such a tutor exists, setting `assignedTutorId` to the
target id and `status` to `"Assigned"`. -/
theorem assignAssignmentToTutor_approval (db : DB)
    (assignmentId tutorId : String) (asg : Assignment)
    (h : db.assignments.find? (fun a => a.id == assignmentId) = some asg) :
    ((∀ u ∈ db.users, ¬(u.id = tutorId ∧ u.role = "TUTOR" ∧ u.isApproved = true)) →
      assignAssignmentToTutor assignmentId tutorId db =
        (.err 404 "Tutor not found or not approved.", db, [])) ∧
    (∀ t, db.users.find?
        (fun u => u.id == tutorId && u.role == "TUTOR" && u.isApproved) = some t →
      (assignAssignmentToTutor assignmentId tutorId db).1 =
        .ok "Assignment assigned to tutor." ∧
      (assignAssignmentToTutor assignmentId tutorId db).2.1.assignments.find?
          (fun a => a.id == assignmentId) =
        some { asg with assignedTutorId := some tutorId, status := "Assigned" }) := by
  constructor
  · intro habs
    have hnone : db.users.find?
        (fun u => u.id == tutorId && u.role == "TUTOR" && u.isApproved) = none := by
      rw [List.find?_eq_none]
      intro u hu
      simp only [Bool.and_eq_true, beq_iff_eq, not_and]
      intro h1 h2
      exact habs u hu ⟨h1.1, h1.2, h2⟩
    simp [assignAssignmentToTutor, h, hnone]
  · intro t ht
    have hrun : assignAssignmentToTutor assignmentId tutorId db =
        (.ok "Assignment assigned to tutor.",
         updateAssignment db assignmentId
           (fun a => { a with assignedTutorId := some tutorId,
                              status := "Assigned" }),
         [⟨t.email, "New Assignment Assigned to You"⟩,
          ⟨adminEmail, "Assignment Assigned Notification"⟩]) := by
      simp [assignAssignmentToTutor, h, ht]
    refine ⟨by rw [hrun], ?_⟩
    have h21 : (assignAssignmentToTutor assignmentId tutorId db).2.1 =
        updateAssignment db assignmentId
          (fun a => { a with assignedTutorId := some tutorId,
                             status := "Assigned" }) := by
      rw [hrun]
    rw [h21, find?_updateAssignment db assignmentId
      (fun a => { a with assignedTutorId := some tutorId, status := "Assigned" })
      (fun a => rfl), h]
    rfl

/-- C8 witness: the unapproved sample tutor `t3` is rejected without
mutation; the approved sample tutor `t1` is assigned. -/
theorem assignAssignmentToTutor_approval_witness :
    assignAssignmentToTutor "a1" "t3" exDB =
      (.err 404 "Tutor not found or not approved.", exDB, []) ∧
    (assignAssignmentToTutor "a1" "t1" exDB).1 =
      .ok "Assignment assigned to tutor." :=
  ⟨(assignAssignmentToTutor_approval exDB "a1" "t3" asgPending (by decide)).1
      (by decide),
   ((assignAssignmentToTutor_approval exDB "a1" "t1" asgPending (by decide)).2
      exTutor (by decide)).1⟩

/-- C1 counterexample: the claim says no endpoint discloses
`completedFileUrl` without the ownership and payment checks, but
`downloadAssignment` (`GET /api/assignments/download/:assignmentId`)
redirects to the solution of the sample assignment `a3` even though
`isPaid = false` — and it consults no caller identity at all. -/
theorem downloadAssignment_discloses_unpaid :
    asgCompletedUnpaid.isPaid = false ∧
    asgCompletedUnpaid.completedFileUrl = some "sol3" ∧
    downloadAssignment "a3" exDB = (.redirect "sol3", exDB, []) := by
  decide

/-- C1 amended: `downloadSolutionFile` does enforce the claimed checks —
a non-owner gets 404, the owner gets 403 (`PaymentRequired`) while
`isPaid = false` and a redirect to the solution when `isPaid = true` —
but `downloadAssignment` additionally discloses `completedFileUrl` to any
authenticated caller with no ownership or payment precondition. -/
theorem downloadSolutionFile_gates (db : DB) (assignmentId studentId : String) :
    (db.assignments.find?
        (fun a => a.id == assignmentId && a.studentId == studentId) = none →
      downloadSolutionFile assignmentId studentId db =
        (.err 404 "Assignment not found.", db, [])) ∧
    (∀ a, db.assignments.find?
        (fun a => a.id == assignmentId && a.studentId == studentId) = some a →
      a.isPaid = false →
      downloadSolutionFile assignmentId studentId db =
        (.err 403 "Access denied. Payment required to download the solution.",
         db, [])) ∧
    (∀ a url, db.assignments.find?
        (fun a => a.id == assignmentId && a.studentId == studentId) = some a →
      a.isPaid = true → a.completedFileUrl = some url →
      downloadSolutionFile assignmentId studentId db =
        (.redirect url, db, [])) ∧
    (∀ a url, db.assignments.find? (fun a => a.id == assignmentId) = some a →
      a.completedFileUrl = some url →
      downloadAssignment assignmentId db = (.redirect url, db, [])) := by
  refine ⟨?_, ?_, ?_, ?_⟩
  · intro hn
    simp [downloadSolutionFile, hn]
  · intro a ha hp
    simp [downloadSolutionFile, ha, hp]
  · intro a url ha hp hc
    simp [downloadSolutionFile, ha, hp, hc]
  · intro a url ha hc
    simp [downloadAssignment, ha, hc]

/-- C1 amended witness: all four branches on the sample store — non-owner
404, owner-unpaid 403, owner-paid redirect, and the ungated
`downloadAssignment` redirect. -/
theorem downloadSolutionFile_gates_witness :
    downloadSolutionFile "a4" "s2" exDB =
      (.err 404 "Assignment not found.", exDB, []) ∧
    downloadSolutionFile "a3" "s1" exDB =
      (.err 403 "Access denied. Payment required to download the solution.",
       exDB, []) ∧
    downloadSolutionFile "a4" "s1" exDB = (.redirect "sol4", exDB, []) ∧
    downloadAssignment "a3" exDB = (.redirect "sol3", exDB, []) :=
  ⟨(downloadSolutionFile_gates exDB "a4" "s2").1 (by decide),
   (downloadSolutionFile_gates exDB "a3" "s1").2.1 asgCompletedUnpaid
      (by decide) (by decide),
   (downloadSolutionFile_gates exDB "a4" "s1").2.2.1 asgCompletedPaid "sol4"
      (by decide) (by decide) (by decide),
   (downloadSolutionFile_gates exDB "a3" "s1").2.2.2 asgCompletedUnpaid "sol3"
      (by decide) (by decide)⟩

/-- C2 counterexample: sample assignment `a2` is assigned to tutor `t1`,
yet a `complete` call in the name of tutor `t2` succeeds and mutates the
record — `completeAssignment` never consults the caller's identity. -/
theorem completeAssignment_ignores_caller :
    asgInProgress.assignedTutorId = some "t1" ∧
    ("t2" : String) ≠ "t1" ∧
    (completeAssignment "a2" "newsol" "t2" 99 exDB).1 =
      .ok "Assignment marked as completed." ∧
    (completeAssignment "a2" "newsol" "t2" 99 exDB).2.1.assignments.find?
        (fun a => a.id == "a2") =
      some { asgInProgress with status := "Completed",
                                completedFileUrl := some "newsol",
                                completedAt := some 99 } := by
  decide

/-- C2 amended: only `review-and-price` is restricted to the assigned
tutor — and a mismatching tutor receives 404 (NotFound), not Forbidden,
with the store unchanged; `complete` is entirely caller-independent (the
handler never reads `req.user`), and `reject` consults no caller identity:
it succeeds for any caller that passes the route's TUTOR role gate whenever
the assignment is in status `"Assigned"`. -/
theorem tutor_identity_checks (db : DB) (assignmentId : String)
    (price : Int) (tutorId : String) :
    (0 < price →
      db.assignments.find?
          (fun a => a.id == assignmentId && a.assignedTutorId == some tutorId) =
        none →
      reviewAndSetPrice assignmentId price tutorId db =
        (.err 404 "Assignment not found or not assigned to you.", db, [])) ∧
    (∀ fileUrl t1 t2 now,
      completeAssignment assignmentId fileUrl t1 now db =
        completeAssignment assignmentId fileUrl t2 now db) ∧
    (∀ a, db.assignments.find? (fun b => b.id == assignmentId) = some a →
      a.status = "Assigned" →
      (rejectAssignment assignmentId db).1 =
        .ok "Assignment rejected successfully.") := by
  refine ⟨?_, fun _ _ _ _ => rfl, ?_⟩
  · intro hpos hn
    have hnle : ¬ price ≤ 0 := by omega
    simp only [reviewAndSetPrice]
    rw [if_neg hnle]
    simp [hn]
  · intro a ha hs
    simp [rejectAssignment, ha, hs]

/-- C2 amended witness: tutor `t2` cannot price `a5` (assigned to `t1`,
404 and no mutation); `complete` behaves identically for callers `t1` and
`t2`; `reject` succeeds on the assigned sample assignment with no caller
precondition. -/
theorem tutor_identity_checks_witness :
    reviewAndSetPrice "a5" 50 "t2" exDB =
      (.err 404 "Assignment not found or not assigned to you.", exDB, []) ∧
    completeAssignment "a2" "x" "t1" 7 exDB =
      completeAssignment "a2" "x" "t2" 7 exDB ∧
    (rejectAssignment "a5" exDB).1 = .ok "Assignment rejected successfully." :=
  ⟨(tutor_identity_checks exDB "a5" 50 "t2").1 (by decide) (by decide),
   (tutor_identity_checks exDB "a2" 50 "t2").2.1 "x" "t1" "t2" 7,
   (tutor_identity_checks exDB "a5" 50 "t2").2.2 asgAssigned (by decide) rfl⟩

/-- C3 counterexample: `complete` requires source state `In Progress`
according to the claim, but a `complete` call on the sample assignment `a1`,
which is still `Pending`, succeeds and mutates the record. -/
theorem completeAssignment_no_state_guard :
    asgPending.status = "Pending" ∧
    (completeAssignment "a1" "newsol" "t1" 99 exDB).1 =
      .ok "Assignment marked as completed." ∧
    (completeAssignment "a1" "newsol" "t1" 99 exDB).2.1.assignments.find?
        (fun a => a.id == "a1") =
      some { asgPending with status := "Completed",
                             completedFileUrl := some "newsol",
                             completedAt := some 99 } := by
  decide

/-- C3 amended: only `review-and-price` and `reject` enforce their source
state (both fail with a 400 `InvalidStateTransition`-style error and leave
the store unchanged when the status is not `"Assigned"`); `assign-to-tutor`,
`complete` and `mark-paid` perform no source-state check: `assign-to-tutor`
succeeds from any status once the approved tutor exists, `complete` rewrites
any found assignment to `"Completed"`, and `mark-paid` succeeds from any
status once `isPaid = false`. -/
theorem state_guard_coverage (db : DB) (assignmentId : String)
    (price : Int) (tutorId : String) :
    (∀ a, ¬ price ≤ 0 →
      db.assignments.find?
          (fun b => b.id == assignmentId && b.assignedTutorId == some tutorId) =
        some a →
      a.status ≠ "Assigned" →
      reviewAndSetPrice assignmentId price tutorId db =
        (.err 400 "Assignment is not in an assignable state.", db, [])) ∧
    (∀ a, db.assignments.find? (fun b => b.id == assignmentId) = some a →
      a.status ≠ "Assigned" →
      rejectAssignment assignmentId db =
        (.err 400 "Assignment is not in an assignable state.", db, [])) ∧
    (∀ a t, db.assignments.find? (fun b => b.id == assignmentId) = some a →
      db.users.find?
          (fun u => u.id == tutorId && u.role == "TUTOR" && u.isApproved) =
        some t →
      (assignAssignmentToTutor assignmentId tutorId db).1 =
        .ok "Assignment assigned to tutor.") ∧
    (∀ a fileUrl now, db.assignments.find? (fun b => b.id == assignmentId) = some a →
      (completeAssignment assignmentId fileUrl tutorId now db).2.1.assignments.find?
          (fun b => b.id == assignmentId) =
        some { a with status := "Completed",
                      completedFileUrl := some fileUrl,
                      completedAt := some now }) ∧
    (∀ a, db.assignments.find? (fun b => b.id == assignmentId) = some a →
      a.isPaid = false →
      (markAssignmentAsPaid assignmentId db).1 =
        .ok "Assignment marked as paid successfully.") := by
  refine ⟨?_, ?_, ?_, ?_, ?_⟩
  · intro a hnle ha hs
    simp only [reviewAndSetPrice]
    rw [if_neg hnle]
    simp [ha, hs]
  · intro a ha hs
    simp [rejectAssignment, ha, hs]
  · intro a t ha ht
    simp [assignAssignmentToTutor, ha, ht]
  · intro a fileUrl now ha
    have h21 : (completeAssignment assignmentId fileUrl tutorId now db).2.1 =
        updateAssignment db assignmentId
          (fun b => { b with status := "Completed",
                             completedFileUrl := some fileUrl,
                             completedAt := some now }) := by
      simp only [completeAssignment, ha]
      cases db.users.find? (fun u => u.id == a.studentId) <;> rfl
    rw [h21, find?_updateAssignment db assignmentId
      (fun b => { b with status := "Completed",
                         completedFileUrl := some fileUrl,
                         completedAt := some now })
      (fun b => rfl), ha]
    rfl
  · intro a ha hp
    simp [markAssignmentAsPaid, ha, hp]

/-- C3 amended witness: pricing `a2` (already `In Progress`) fails with
400 and no mutation; rejecting completed `a3` fails with 400; assigning
tutor `t2` to the already-completed `a4` succeeds; completing the assigned
`a5` rewrites it; marking the pending `a1` as paid succeeds. -/
theorem state_guard_coverage_witness :
    reviewAndSetPrice "a2" 50 "t1" exDB =
      (.err 400 "Assignment is not in an assignable state.", exDB, []) ∧
    rejectAssignment "a3" exDB =
      (.err 400 "Assignment is not in an assignable state.", exDB, []) ∧
    (assignAssignmentToTutor "a4" "t2" exDB).1 =
      .ok "Assignment assigned to tutor." ∧
    (completeAssignment "a5" "s" "t1" 8 exDB).2.1.assignments.find?
        (fun b => b.id == "a5") =
      some { asgAssigned with status := "Completed",
                              completedFileUrl := some "s",
                              completedAt := some 8 } ∧
    (markAssignmentAsPaid "a1" exDB).1 =
      .ok "Assignment marked as paid successfully." :=
  ⟨(state_guard_coverage exDB "a2" 50 "t1").1 asgInProgress (by decide)
      (by decide) (by decide),
   (state_guard_coverage exDB "a3" 50 "t1").2.1 asgCompletedUnpaid (by decide)
      (by decide),
   (state_guard_coverage exDB "a4" 50 "t2").2.2.1 asgCompletedPaid exTutor2
      (by decide) (by decide),
   (state_guard_coverage exDB "a5" 50 "t1").2.2.2.1 asgAssigned "s" 8
      (by decide),
   (state_guard_coverage exDB "a1" 50 "t1").2.2.2.2 asgPending (by decide)
      (by decide)⟩

/-- C4 counterexample: `mark-paid` on the sample assignment `a1`, which is
still `Pending`, succeeds — producing a reachable record with
`isPaid = true` and `status ≠ "Completed"`, which the claim rules out. -/
theorem markPaid_pending_reachable :
    asgPending.status = "Pending" ∧
    (markAssignmentAsPaid "a1" exDB).1 =
      .ok "Assignment marked as paid successfully." ∧
    (markAssignmentAsPaid "a1" exDB).2.1.assignments.find?
        (fun a => a.id == "a1") = some { asgPending with isPaid := true } ∧
    ({ asgPending with isPaid := true } : Assignment).isPaid = true ∧
    ({ asgPending with isPaid := true } : Assignment).status ≠ "Completed" := by
  decide

/-- C4 amended: neither operation that sets `isPaid` checks the status:
`mark-paid` requires only that the assignment exists with `isPaid = false`,
and a successful payment verification sets `isPaid := true` on any existing
assignment; both leave the status as it was, so `isPaid = true` with
`status ≠ Completed` is reachable. -/
theorem isPaid_setters_ignore_status (db : DB) (assignmentId : String)
    (a : Assignment)
    (h : db.assignments.find? (fun b => b.id == assignmentId) = some a) :
    (a.isPaid = false →
      (markAssignmentAsPaid assignmentId db).1 =
        .ok "Assignment marked as paid successfully." ∧
      (markAssignmentAsPaid assignmentId db).2.1.assignments.find?
          (fun b => b.id == assignmentId) = some { a with isPaid := true }) ∧
    (∀ r, (verifyPaymentForAssignment (some r)
          ⟨"success", some assignmentId⟩ db).1 =
        .ok "Payment verified successfully!" ∧
      (verifyPaymentForAssignment (some r)
          ⟨"success", some assignmentId⟩ db).2.1.assignments.find?
          (fun b => b.id == assignmentId) = some { a with isPaid := true }) := by
  have hupd : (updateAssignment db assignmentId
        (fun b => { b with isPaid := true })).assignments.find?
      (fun b => b.id == assignmentId) = some { a with isPaid := true } := by
    rw [find?_updateAssignment db assignmentId
      (fun b => { b with isPaid := true }) (fun b => rfl), h]
    rfl
  constructor
  · intro hp
    have hrun : markAssignmentAsPaid assignmentId db =
        (.ok "Assignment marked as paid successfully.",
         updateAssignment db assignmentId (fun b => { b with isPaid := true }),
         []) := by
      simp [markAssignmentAsPaid, h, hp]
    have h21 : (markAssignmentAsPaid assignmentId db).2.1 =
        updateAssignment db assignmentId (fun b => { b with isPaid := true }) := by
      rw [hrun]
    exact ⟨by rw [hrun], by rw [h21]; exact hupd⟩
  · intro r
    have h1 : (verifyPaymentForAssignment (some r)
        ⟨"success", some assignmentId⟩ db).1 = .ok "Payment verified successfully!" := by
      simp only [verifyPaymentForAssignment, h]
      cases db.users.find? (fun u => u.id == a.studentId) <;> simp
    have h21 : (verifyPaymentForAssignment (some r)
        ⟨"success", some assignmentId⟩ db).2.1 =
        updateAssignment db assignmentId (fun b => { b with isPaid := true }) := by
      simp only [verifyPaymentForAssignment, h]
      cases db.users.find? (fun u => u.id == a.studentId) <;> simp
    exact ⟨h1, by rw [h21]; exact hupd⟩

/-- C4 amended witness: concrete runs of both setters on the pending
sample assignment. -/
theorem isPaid_setters_ignore_status_witness :
    (markAssignmentAsPaid "a1" exDB).2.1.assignments.find?
        (fun b => b.id == "a1") = some { asgPending with isPaid := true } ∧
    (verifyPaymentForAssignment (some "ref")
        ⟨"success", some "a1"⟩ exDB).2.1.assignments.find?
        (fun b => b.id == "a1") = some { asgPending with isPaid := true } :=
  ⟨((isPaid_setters_ignore_status exDB "a1" asgPending (by decide)).1
      (by decide)).2,
   ((isPaid_setters_ignore_status exDB "a1" asgPending (by decide)).2 "ref").2⟩

/-- C6 counterexample: verifying a successful reference for the sample
assignment `a3` sends the availability e-mail and applies `isPaid`; running
the same verification again on the resulting store sends the very same
e-mail a second time, which the claim forbids. -/
theorem verifyPayment_double_sends_email :
    (verifyPaymentForAssignment (some "ref") ⟨"success", some "a3"⟩ exDB).2.2 =
      [⟨"s1@mail", "Assignment Solution Available"⟩] ∧
    (verifyPaymentForAssignment (some "ref") ⟨"success", some "a3"⟩
        exDB).2.1.assignments.find? (fun a => a.id == "a3") =
      some { asgCompletedUnpaid with isPaid := true } ∧
    (verifyPaymentForAssignment (some "ref") ⟨"success", some "a3"⟩
        (verifyPaymentForAssignment (some "ref") ⟨"success", some "a3"⟩
          exDB).2.1).2.2 =
      [⟨"s1@mail", "Assignment Solution Available"⟩] := by
  decide

/-- C6 amended: payment verification has no idempotence guard.  On an
already-verified assignment (`isPaid = true`) a successful verification
succeeds again; the assignment record's value is unchanged (`isPaid` stays
`true`, the update rewrites it to itself), but the solution-availability
e-mail is sent again whenever the student's e-mail and `completedFileUrl`
are present. -/
theorem verifyPayment_already_paid (db : DB) (assignmentId r : String)
    (a : Assignment) (s : User)
    (h : db.assignments.find? (fun b => b.id == assignmentId) = some a)
    (hp : a.isPaid = true)
    (hs : db.users.find? (fun u => u.id == a.studentId) = some s)
    (he : s.email ≠ "") (hc : a.completedFileUrl.isSome = true) :
    (verifyPaymentForAssignment (some r) ⟨"success", some assignmentId⟩ db).1 =
      .ok "Payment verified successfully!" ∧
    (verifyPaymentForAssignment (some r)
        ⟨"success", some assignmentId⟩ db).2.1.assignments.find?
        (fun b => b.id == assignmentId) = some a ∧
    (verifyPaymentForAssignment (some r) ⟨"success", some assignmentId⟩ db).2.2 =
      [⟨s.email, "Assignment Solution Available"⟩] := by
  have hrun : verifyPaymentForAssignment (some r)
      ⟨"success", some assignmentId⟩ db =
      (.ok "Payment verified successfully!",
       updateAssignment db assignmentId (fun b => { b with isPaid := true }),
       [⟨s.email, "Assignment Solution Available"⟩]) := by
    simp [verifyPaymentForAssignment, h, hs, he, hc]
  have h21 : (verifyPaymentForAssignment (some r)
      ⟨"success", some assignmentId⟩ db).2.1 =
      updateAssignment db assignmentId (fun b => { b with isPaid := true }) := by
    rw [hrun]
  refine ⟨by rw [hrun], ?_, by rw [hrun]⟩
  rw [h21, find?_updateAssignment db assignmentId
    (fun b => { b with isPaid := true }) (fun b => rfl), h]
  simp [setPaid_eq_self hp]

/-- C6 amended witness: verifying the already-paid sample assignment `a4`
leaves its record unchanged but re-sends the availability e-mail. -/
theorem verifyPayment_already_paid_witness :
    (verifyPaymentForAssignment (some "ref")
        ⟨"success", some "a4"⟩ exDB).2.1.assignments.find?
        (fun b => b.id == "a4") = some asgCompletedPaid ∧
    (verifyPaymentForAssignment (some "ref") ⟨"success", some "a4"⟩ exDB).2.2 =
      [⟨"s1@mail", "Assignment Solution Available"⟩] :=
  ⟨(verifyPayment_already_paid exDB "a4" "ref" asgCompletedPaid exStudent
      (by decide) (by decide) (by decide) (by decide) (by decide)).2.1,
   (verifyPayment_already_paid exDB "a4" "ref" asgCompletedPaid exStudent
      (by decide) (by decide) (by decide) (by decide) (by decide)).2.2⟩

/-- The half of the spec's tutor/status invariant that the code does
preserve: a record with a tutor attached has a post-`Pending` status. -/
@[reducible] def tutorStatusInv (a : Assignment) : Prop :=
  a.assignedTutorId ≠ none →
    a.status ∈ (["Assigned", "In Progress", "Completed", "Rejected"] : List String)

/-- An update whose rewrite preserves `tutorStatusInv` preserves it for the
whole store. -/
theorem updateAssignment_tutorInv {db : DB} {id0 : String}
    {f : Assignment → Assignment}
    (hf : ∀ a, tutorStatusInv a → tutorStatusInv (f a))
    (h : ∀ a ∈ db.assignments, tutorStatusInv a) :
    ∀ b ∈ (updateAssignment db id0 f).assignments, tutorStatusInv b := by
  intro b hb
  obtain ⟨a, ha, hab⟩ := mem_updateAssignment hb
  by_cases hid : (a.id == id0) = true
  · rw [hab, if_pos hid]
    exact hf a (h a ha)
  · rw [hab, if_neg hid]
    exact h a ha

/-- `assignAssignment` leaves the store unchanged or applies its single
update. -/
theorem assignAssignment_shape (assignmentId : String) (db : DB) :
    (assignAssignment assignmentId db).2.1 = db ∨
    (assignAssignment assignmentId db).2.1 =
      updateAssignment db assignmentId (fun a => { a with status := "Assigned" }) := by
  unfold assignAssignment
  split
  · left; rfl
  · right; rfl

/-- `assignAssignmentToTutor` leaves the store unchanged or applies its
single update. -/
theorem assignAssignmentToTutor_shape (assignmentId tutorId : String) (db : DB) :
    (assignAssignmentToTutor assignmentId tutorId db).2.1 = db ∨
    (assignAssignmentToTutor assignmentId tutorId db).2.1 =
      updateAssignment db assignmentId
        (fun a => { a with assignedTutorId := some tutorId,
                           status := "Assigned" }) := by
  unfold assignAssignmentToTutor
  split
  · left; rfl
  · split
    · left; rfl
    · right; rfl

/-- `reviewAndSetPrice` leaves the store unchanged or applies its single
update. -/
theorem reviewAndSetPrice_shape (assignmentId : String) (price : Int)
    (tutorId : String) (db : DB) :
    (reviewAndSetPrice assignmentId price tutorId db).2.1 = db ∨
    (reviewAndSetPrice assignmentId price tutorId db).2.1 =
      updateAssignment db assignmentId
        (fun b => { b with status := "In Progress",
                           tutorCharge := some price }) := by
  unfold reviewAndSetPrice
  split
  · left; rfl
  · split
    · left; rfl
    · split
      · left; rfl
      · right
        split <;> rfl

/-- `completeAssignment` leaves the store unchanged or applies its single
update. -/
theorem completeAssignment_shape (assignmentId fileUrl tutorId : String)
    (now : Nat) (db : DB) :
    (completeAssignment assignmentId fileUrl tutorId now db).2.1 = db ∨
    (completeAssignment assignmentId fileUrl tutorId now db).2.1 =
      updateAssignment db assignmentId
        (fun b => { b with status := "Completed",
                           completedFileUrl := some fileUrl,
                           completedAt := some now }) := by
  unfold completeAssignment
  split
  · left; rfl
  · right
    split <;> rfl

/-- `rejectAssignment` leaves the store unchanged or applies its single
update. -/
theorem rejectAssignment_shape (assignmentId : String) (db : DB) :
    (rejectAssignment assignmentId db).2.1 = db ∨
    (rejectAssignment assignmentId db).2.1 =
      updateAssignment db assignmentId
        (fun b => { b with status := "Rejected" }) := by
  unfold rejectAssignment
  split
  · left; rfl
  · split
    · left; rfl
    · right; rfl

/-- `markAssignmentAsPaid` leaves the store unchanged or applies its single
update. -/
theorem markAssignmentAsPaid_shape (assignmentId : String) (db : DB) :
    (markAssignmentAsPaid assignmentId db).2.1 = db ∨
    (markAssignmentAsPaid assignmentId db).2.1 =
      updateAssignment db assignmentId (fun b => { b with isPaid := true }) := by
  unfold markAssignmentAsPaid
  split
  · left; rfl
  · split
    · left; rfl
    · right; rfl

/-- `verifyPaymentForAssignment` leaves the store unchanged or applies its
single `isPaid` update to some id. -/
theorem verifyPaymentForAssignment_shape (reference : Option String)
    (verif : VerificationData) (db : DB) :
    (verifyPaymentForAssignment reference verif db).2.1 = db ∨
    ∃ id0, (verifyPaymentForAssignment reference verif db).2.1 =
      updateAssignment db id0 (fun b => { b with isPaid := true }) := by
  unfold verifyPaymentForAssignment
  split
  · left; rfl
  · split
    · split
      · left; rfl
      · split
        · left; rfl
        · right
          exact ⟨_, rfl⟩
    · left; rfl

/-- C7 counterexample: the admin route `assignAssignment` moves the sample
pending assignment `a1` to status `"Assigned"` while leaving
`assignedTutorId = none` — a reachable record with a status in
{Assigned, In Progress, Completed, Rejected} and no tutor, refuting the
claimed biconditional. -/
theorem assignAssignment_breaks_tutor_iff :
    (assignAssignment "a1" exDB).2.1.assignments.find?
        (fun a => a.id == "a1") = some { asgPending with status := "Assigned" } ∧
    ({ asgPending with status := "Assigned" } : Assignment).assignedTutorId =
      none ∧
    ({ asgPending with status := "Assigned" } : Assignment).status ∈
      (["Assigned", "In Progress", "Completed", "Rejected"] : List String) := by
  decide

/-- C7 amended: only the forward implication survives — every mutating
operation preserves "assignedTutorId ≠ null implies status ∈ {Assigned,
In Progress, Completed, Rejected}" for every record of the store; the
converse direction fails because `assignAssignment` produces
status = Assigned with a null tutor. -/
theorem ops_preserve_tutorStatusInv (db : DB)
    (h : ∀ a ∈ db.assignments, tutorStatusInv a) :
    (∀ id, ∀ b ∈ (assignAssignment id db).2.1.assignments, tutorStatusInv b) ∧
    (∀ id tid, ∀ b ∈ (assignAssignmentToTutor id tid db).2.1.assignments,
      tutorStatusInv b) ∧
    (∀ id price tid, ∀ b ∈ (reviewAndSetPrice id price tid db).2.1.assignments,
      tutorStatusInv b) ∧
    (∀ id url tid now,
      ∀ b ∈ (completeAssignment id url tid now db).2.1.assignments,
      tutorStatusInv b) ∧
    (∀ id, ∀ b ∈ (rejectAssignment id db).2.1.assignments, tutorStatusInv b) ∧
    (∀ id, ∀ b ∈ (markAssignmentAsPaid id db).2.1.assignments,
      tutorStatusInv b) ∧
    (∀ reference verif,
      ∀ b ∈ (verifyPaymentForAssignment reference verif db).2.1.assignments,
      tutorStatusInv b) := by
  refine ⟨?_, ?_, ?_, ?_, ?_, ?_, ?_⟩
  · intro id b hb
    rcases assignAssignment_shape id db with hsh | hsh <;> rw [hsh] at hb
    · exact h b hb
    · exact updateAssignment_tutorInv (fun a _ _ => by simp) h b hb
  · intro id tid b hb
    rcases assignAssignmentToTutor_shape id tid db with hsh | hsh <;>
      rw [hsh] at hb
    · exact h b hb
    · exact updateAssignment_tutorInv (fun a _ _ => by simp) h b hb
  · intro id price tid b hb
    rcases reviewAndSetPrice_shape id price tid db with hsh | hsh <;>
      rw [hsh] at hb
    · exact h b hb
    · exact updateAssignment_tutorInv (fun a _ _ => by simp) h b hb
  · intro id url tid now b hb
    rcases completeAssignment_shape id url tid now db with hsh | hsh <;>
      rw [hsh] at hb
    · exact h b hb
    · exact updateAssignment_tutorInv (fun a _ _ => by simp) h b hb
  · intro id b hb
    rcases rejectAssignment_shape id db with hsh | hsh <;> rw [hsh] at hb
    · exact h b hb
    · exact updateAssignment_tutorInv (fun a _ _ => by simp) h b hb
  · intro id b hb
    rcases markAssignmentAsPaid_shape id db with hsh | hsh <;> rw [hsh] at hb
    · exact h b hb
    · exact updateAssignment_tutorInv
        (f := fun b => { b with isPaid := true }) (fun a ha => ha) h b hb
  · intro reference verif b hb
    rcases verifyPaymentForAssignment_shape reference verif db with
      hsh | ⟨id0, hsh⟩ <;> rw [hsh] at hb
    · exact h b hb
    · exact updateAssignment_tutorInv
        (f := fun b => { b with isPaid := true }) (fun a ha => ha) h b hb

/-- C7 amended witness: a concrete record produced by `mark-paid` on the
invariant-satisfying sample store still satisfies the forward
implication. -/
theorem ops_preserve_tutorStatusInv_witness :
    tutorStatusInv { asgPending with isPaid := true } :=
  (ops_preserve_tutorStatusInv exDB (by decide)).2.2.2.2.2.1 "a1"
    { asgPending with isPaid := true } (by decide)

end APlusPlanner
